import Mathlib

/-
Shallow embedding of the QuoteIQ webhook reconciliation core.

Source of truth: src/index.js (the variant that keeps a local identity
mapping store, the JavaScript Map eventMappings, from doc_id to the id of
the Google Calendar event created for it). The repository also ships a
second variant (src/unnamed/part_000) that abandons the local mapping
store and resolves calendar resources by a remote free-text search; where
the two variants disagree, src/index.js is modelled here and the
divergence is recorded in the results.

Modelling conventions:
- JavaScript values that may be undefined are Option values; none stands
  for a missing field.
- JavaScript truthiness on strings (undefined and the empty string are
  falsy) is modelled by jsTruthy, and the JavaScript expression
  x || d by jsOr x d.
- Template interpolation of a possibly-undefined value renders the string
  "undefined", as JavaScript does; this is jsStr.
- The remote calendar service and the configuration environment are an
  explicit oracle, CalEnv: whether the credentials variable is set and
  parses, the outcome of an insert call, the outcome of an update call.
- Each reconciliation function returns its JavaScript return value
  (Option String: the id of the affected event, none for undefined),
  the mapping store after the call, and the trace of external calendar
  calls it issued, in order. Exceptions thrown by the remote service are
  caught inside these functions exactly where the source catches them,
  so the functions are total. The source lets exactly two synchronous
  exceptions escape to the HTTP route, and both are modelled explicitly:
  a property access on an undefined payload, and the RangeError thrown
  by toISOString on a truthy schedule timestamp that does not parse as a
  valid date; the schedule handlers therefore return an Option, none
  meaning the handler threw before any external call.
- Date parsing (new Date(x)) is abstracted by an oracle
  dv : String → Bool saying which timestamp strings parse to a valid
  instant; toISOString on an invalid one throws. The built resource
  carries the raw timestamp strings; no claim below depends on the ISO
  rendering itself, only on whether it throws.
-/

namespace QuoteIQ

/-- Whitespace test of the JavaScript String trim, per the ECMAScript
WhiteSpace and LineTerminator productions: tab, line feed, vertical tab,
form feed, carriage return, space, no-break space, the zero-width
no-break space, the line and paragraph separators, and the Unicode
space-separator category. -/
def isJsWs (c : Char) : Bool :=
  c == ' ' || c == '\t' || c == '\n' || c == '\r' ||
  c == '\u000B' || c == '\u000C' || c == '\u00A0' || c == '\uFEFF' ||
  c == '\u1680' || c == '\u2000' || c == '\u2001' || c == '\u2002' ||
  c == '\u2003' || c == '\u2004' || c == '\u2005' || c == '\u2006' ||
  c == '\u2007' || c == '\u2008' || c == '\u2009' || c == '\u200A' ||
  c == '\u2028' || c == '\u2029' || c == '\u202F' || c == '\u205F' ||
  c == '\u3000'

/-- Drop whitespace from both ends of a character list. -/
def trimChars (l : List Char) : List Char :=
  ((l.dropWhile isJsWs).reverse.dropWhile isJsWs).reverse

/-- JavaScript String.prototype.trim, modelled on the character list of
the string. -/
def jsTrim (s : String) : String := String.mk (trimChars s.data)

/-- JavaScript truthiness of a possibly-undefined string: undefined and
the empty string are falsy. -/
def jsTruthy : Option String → Bool
  | none => false
  | some s => !(s == "")

/-- The JavaScript expression x || d for a possibly-undefined string x. -/
def jsOr (x : Option String) (d : String) : String :=
  match x with
  | none => d
  | some s => if s == "" then d else s

/-- Template interpolation of a possibly-undefined string: undefined
renders as the string "undefined". -/
def jsStr (x : Option String) : String := x.getD "undefined"

/-- Event payload (src/index.js). All fields are optional. Fields that
feed only the console logs and the disabled SMS stub (estimate_no, total,
service_list, pdf fields) have no external effect and are omitted. -/
structure Payload where
  doc_id : Option String
  customer_name : Option String
  customer_phone : Option String
  customer_email : Option String
  customer_address : Option String
  services_list : Option String
  schedule_notes : Option String
  schedule_starts_at : Option String
  schedule_ends_at : Option String
  deriving DecidableEq

/-- The mapping key: payload.doc_id, which may be undefined (a JavaScript
Map can key on undefined, so the key type keeps the option). -/
abbrev DocId := Option String

/-- The identity mapping store eventMappings (src/index.js line 291):
doc_id to Google Calendar event id, as an association list. -/
abbrev Mappings := List (DocId × String)

/-- Map.get. -/
def mget (m : Mappings) (d : DocId) : Option String := List.lookup d m

/-- Map.delete. -/
def mdel (m : Mappings) (d : DocId) : Mappings :=
  m.filter (fun kv => !(kv.1 == d))

/-- Map.set: extensionally, the new binding shadows any previous binding
for the same key. -/
def mput (m : Mappings) (d : DocId) (v : String) : Mappings :=
  (d, v) :: mdel m d

/-- Calendar resource sent to the Google Calendar API (the event object
built in handleScheduleCreated and handleScheduleUpdated). startTime and
endTime carry the raw payload timestamps; attendees carries the attendee
email addresses. -/
structure CalendarResource where
  summary : String
  description : String
  startTime : Option String
  endTime : Option String
  attendees : List String
  location : String
  deriving DecidableEq

/-- One external calendar-service call. -/
inductive ExtCall where
  | insert (resource : CalendarResource)
  | update (eventId : String) (resource : CalendarResource)
  | delete (eventId : String)
  deriving DecidableEq

/-- Recognizer for insert calls. -/
def ExtCall.isInsert : ExtCall → Bool
  | ExtCall.insert _ => true
  | _ => false

/-- Outcome of a remote events.update call. -/
inductive UpdateOutcome where
  | ok
  | notFound
  | fail
  deriving DecidableEq

/-- Configuration and remote-service oracle for one reconciliation
operation: whether GOOGLE_SERVICE_ACCOUNT_JSON is set, whether it parses
and the auth client constructs, the outcome of an events.insert call
(some id on success, none when the call throws or times out), and the
outcome of an events.update call. An events.delete call has no
observable effect on the model state whether it succeeds or fails, see
deleteGoogleCalendarEvent. -/
structure CalEnv where
  hasCredsVar : Bool
  credsValid : Bool
  insertOutcome : Option String
  updateOutcome : UpdateOutcome
  deleteOk : Bool
  deriving DecidableEq

/-- getGoogleCalendarAuth (src/index.js lines 293-321): returns a client
exactly when the credentials variable is present and its JSON parses into
a working auth configuration; on any failure it logs and returns null. -/
def getGoogleCalendarAuth (env : CalEnv) : Bool :=
  env.hasCredsVar && env.credsValid

/-- createGoogleCalendarEvent (src/index.js lines 323-379). Returns the
JavaScript return value, the mapping store after the call and the trace
of external calls. With no auth client it skips. On insert success it
stores doc_id to event id and returns the event; every error in the try
block is caught and logged, so a failed insert returns undefined with the
store unchanged. -/
def createGoogleCalendarEvent (env : CalEnv) (eventData : CalendarResource)
    (quoteiqDocId : DocId) (m : Mappings) :
    Option String × Mappings × List ExtCall :=
  if getGoogleCalendarAuth env then
    match env.insertOutcome with
    | some newId =>
        (some newId, mput m quoteiqDocId newId, [ExtCall.insert eventData])
    | none => (none, m, [ExtCall.insert eventData])
  else (none, m, [])

/-- updateGoogleCalendarEvent (src/index.js lines 381-418). With no auth
client it skips. The source guards with if (!googleEventId), which is
true both when the store has no entry (undefined) and when the stored id
is the falsy empty string: in either case it falls back to
createGoogleCalendarEvent on the unchanged store. With a truthy mapped
id it issues events.update against it; a 404 from the remote deletes the
stale mapping and falls back to createGoogleCalendarEvent; any other
update error is caught and logged, returning undefined. -/
def updateGoogleCalendarEvent (env : CalEnv) (eventData : CalendarResource)
    (quoteiqDocId : DocId) (m : Mappings) :
    Option String × Mappings × List ExtCall :=
  if getGoogleCalendarAuth env then
    match mget m quoteiqDocId with
    | none => createGoogleCalendarEvent env eventData quoteiqDocId m
    | some googleEventId =>
        if googleEventId == "" then
          createGoogleCalendarEvent env eventData quoteiqDocId m
        else
          match env.updateOutcome with
          | UpdateOutcome.ok =>
              (some googleEventId, m, [ExtCall.update googleEventId eventData])
          | UpdateOutcome.notFound =>
              let fallback :=
                createGoogleCalendarEvent env eventData quoteiqDocId
                  (mdel m quoteiqDocId)
              (fallback.1, fallback.2.1,
                ExtCall.update googleEventId eventData :: fallback.2.2)
          | UpdateOutcome.fail =>
              (none, m, [ExtCall.update googleEventId eventData])
  else (none, m, [])

/-- deleteGoogleCalendarEvent (src/index.js lines 420-453). With no auth
client it skips. The source guards with if (!googleEventId): with no
entry, or with a stored falsy empty-string id, it returns without any
external call and with the store intact. With a truthy mapped id it
issues events.delete and removes the mapping; the catch branch also
removes the mapping, so success and failure of the remote delete leave
the same state and the same trace. -/
def deleteGoogleCalendarEvent (env : CalEnv) (quoteiqDocId : DocId)
    (m : Mappings) : Mappings × List ExtCall :=
  if getGoogleCalendarAuth env then
    match mget m quoteiqDocId with
    | none => (m, [])
    | some googleEventId =>
        if googleEventId == "" then (m, [])
        else (mdel m quoteiqDocId, [ExtCall.delete googleEventId])
  else (m, [])

/-- The calendar event object built in handleScheduleCreated
(src/index.js lines 150-169): summary, a trimmed multi-line template
description, start and end from the schedule timestamps, attendees from
the customer email (truthiness ternary), location from the customer
address. The template literal places a newline and eight spaces before
each labelled line and a newline and six spaces after the last one; trim
removes the surrounding whitespace. -/
def buildResourceCreated (p : Payload) : CalendarResource :=
  { summary := "Appointment - " ++ jsOr p.customer_name "QuoteIQ Customer"
    description := jsTrim
      ("\n        Customer: " ++ jsOr p.customer_name "N/A" ++
       "\n        Phone: " ++ jsOr p.customer_phone "N/A" ++
       "\n        Email: " ++ jsOr p.customer_email "N/A" ++
       "\n        Address: " ++ jsOr p.customer_address "N/A" ++
       "\n        Services: " ++ jsOr p.services_list "N/A" ++
       "\n        Notes: " ++ jsOr p.schedule_notes "None" ++
       "\n        QuoteIQ Doc ID: " ++ jsStr p.doc_id ++
       "\n      ")
    startTime := p.schedule_starts_at
    endTime := p.schedule_ends_at
    attendees := if jsTruthy p.customer_email then [p.customer_email.getD ""] else []
    location := jsOr p.customer_address "" }

/-- The calendar event object built in handleScheduleUpdated
(src/index.js lines 197-216); the source text is identical to the one in
handleScheduleCreated. -/
def buildResourceUpdated (p : Payload) : CalendarResource :=
  { summary := "Appointment - " ++ jsOr p.customer_name "QuoteIQ Customer"
    description := jsTrim
      ("\n        Customer: " ++ jsOr p.customer_name "N/A" ++
       "\n        Phone: " ++ jsOr p.customer_phone "N/A" ++
       "\n        Email: " ++ jsOr p.customer_email "N/A" ++
       "\n        Address: " ++ jsOr p.customer_address "N/A" ++
       "\n        Services: " ++ jsOr p.services_list "N/A" ++
       "\n        Notes: " ++ jsOr p.schedule_notes "None" ++
       "\n        QuoteIQ Doc ID: " ++ jsStr p.doc_id ++
       "\n      ")
    startTime := p.schedule_starts_at
    endTime := p.schedule_ends_at
    attendees := if jsTruthy p.customer_email then [p.customer_email.getD ""] else []
    location := jsOr p.customer_address "" }

/-- The condition under which the schedule.created and schedule.updated
handlers throw: both timestamps are truthy, so the calendar branch is
taken and the resource is built, but at least one timestamp does not
parse as a valid date, so toISOString throws a RangeError before any
external call. dv is the date-parsing oracle. -/
def scheduleThrow (dv : String → Bool) (p : Payload) : Bool :=
  (jsTruthy p.schedule_starts_at && jsTruthy p.schedule_ends_at) &&
  !(dv (p.schedule_starts_at.getD "") && dv (p.schedule_ends_at.getD ""))

/-- handleScheduleCreated (src/index.js lines 138-183), restricted to its
calendar effect: when both schedule timestamps are truthy it builds the
resource and calls createGoogleCalendarEvent, otherwise it does nothing
to the calendar. Building the resource evaluates toISOString on both
timestamps, which throws when one of them does not parse as a valid date
(oracle dv): that exception escapes the handler before any external
call, modelled as none. The SMS branch is a disabled stub with no
external effect and its date formatting does not throw on an invalid
date. Returns the mapping store and the calendar-call trace. -/
def handleScheduleCreated (dv : String → Bool) (env : CalEnv) (p : Payload)
    (m : Mappings) : Option (Mappings × List ExtCall) :=
  if jsTruthy p.schedule_starts_at && jsTruthy p.schedule_ends_at then
    if dv (p.schedule_starts_at.getD "") && dv (p.schedule_ends_at.getD "") then
      let r := createGoogleCalendarEvent env (buildResourceCreated p) p.doc_id m
      some (r.2.1, r.2.2)
    else none
  else some (m, [])

/-- handleScheduleUpdated (src/index.js lines 185-230): same guard on the
schedule timestamps and same throwing resource construction, then
updateGoogleCalendarEvent. -/
def handleScheduleUpdated (dv : String → Bool) (env : CalEnv) (p : Payload)
    (m : Mappings) : Option (Mappings × List ExtCall) :=
  if jsTruthy p.schedule_starts_at && jsTruthy p.schedule_ends_at then
    if dv (p.schedule_starts_at.getD "") && dv (p.schedule_ends_at.getD "") then
      let r := updateGoogleCalendarEvent env (buildResourceUpdated p) p.doc_id m
      some (r.2.1, r.2.2)
    else none
  else some (m, [])

/-- handleScheduleDeleted (src/index.js lines 232-249): always calls
deleteGoogleCalendarEvent on payload.doc_id. -/
def handleScheduleDeleted (env : CalEnv) (p : Payload) (m : Mappings) :
    Mappings × List ExtCall :=
  deleteGoogleCalendarEvent env p.doc_id m

/-- The switch statement of the webhook route (src/index.js lines 28-49),
given a payload object. The three estimate handlers only log and invoke
the disabled SMS stub, so they neither throw, touch the mapping store nor
issue calendar calls; schedule.deleted never throws with a payload
present; the default case logs the unknown type and does nothing. none
propagates a synchronous handler exception to the route. -/
def routeIndex (dv : String → Bool) (env : CalEnv) (p : Payload)
    (m : Mappings) (eventType : Option String) :
    Option (Mappings × List ExtCall) :=
  if eventType == some "estimate.created" then some (m, [])
  else if eventType == some "estimate.updated" then some (m, [])
  else if eventType == some "estimate.deleted" then some (m, [])
  else if eventType == some "schedule.created" then handleScheduleCreated dv env p m
  else if eventType == some "schedule.updated" then handleScheduleUpdated dv env p m
  else if eventType == some "schedule.deleted" then some (handleScheduleDeleted env p m)
  else some (m, [])

/-- The closed set of event types the switch recognizes. -/
def recognizedB (eventType : Option String) : Bool :=
  eventType == some "estimate.created" || eventType == some "estimate.updated" ||
  eventType == some "estimate.deleted" || eventType == some "schedule.created" ||
  eventType == some "schedule.updated" || eventType == some "schedule.deleted"

/-- The two event types whose handler builds a calendar resource and can
therefore throw on an invalid truthy timestamp. -/
def isScheduleWrite (eventType : Option String) : Bool :=
  eventType == some "schedule.created" || eventType == some "schedule.updated"

/-- Inbound envelope as the route reads it from the parsed JSON body:
body.type and body.payload, either of which may be absent. -/
structure Envelope where
  type_ : Option String
  payload : Option Payload
  deriving DecidableEq

/-- Observable outcome of one POST to the webhook route: HTTP status, the
success flag of the JSON response body, the mapping store afterwards and
the calendar calls issued. -/
structure WebhookResult where
  status : Nat
  ok : Bool
  mappings : Mappings
  calls : List ExtCall
  deriving DecidableEq

/-- The POST /webhook/quoteiq route of src/index.js (lines 14-66). With a
payload object present, the switch runs: if the routed handler completes,
the route answers 200 with success true (the response body also reads
payload.doc_id, which cannot throw when payload is an object); if the
handler throws synchronously (the toISOString RangeError of the schedule
write handlers), the catch answers 500 with the store untouched and no
external call made. With payload absent, a TypeError is thrown and caught
before any external call: every recognized handler dereferences a payload
property in its opening console.log, before any calendar call, and on the
default path the 200-response body itself dereferences payload.doc_id;
the route answers 500 with success false. -/
def dispatchIndex (dv : String → Bool) (env : CalEnv) (m : Mappings)
    (e : Envelope) : WebhookResult :=
  match e.payload with
  | some p =>
      match routeIndex dv env p m e.type_ with
      | some r => { status := 200, ok := true, mappings := r.1, calls := r.2 }
      | none => { status := 500, ok := false, mappings := m, calls := [] }
  | none => { status := 500, ok := false, mappings := m, calls := [] }

/-- One POST of an event envelope to the spreadsheet endpoint. -/
structure SheetPost where
  type_ : String
  payload : Payload
  deriving DecidableEq

/-- Outcome of a best-effort forward: delivered, or failed and logged.
There is no exception constructor because the operation swallows
failures. -/
inductive ForwardOutcome where
  | delivered
  | failedLogged
  deriving DecidableEq

/-- Oracle for the spreadsheet endpoint: whether the single POST reaches
it and returns a success status. -/
structure SheetEnv where
  postOk : Bool
  deriving DecidableEq

/-- Modelled from the spec: the repository sources under src contain no
spreadsheet-forwarding code, only the spec describes it. Following the
spec words, forward serializes the event type with its payload and
performs a single POST to the configured endpoint, with no retry; a
non-success response or transport failure is logged and swallowed. The
function returns the outcome and the trace of posts issued. -/
def forward (env : SheetEnv) (eventType : String) (p : Payload) :
    ForwardOutcome × List SheetPost :=
  (if env.postOk then ForwardOutcome.delivered else ForwardOutcome.failedLogged,
    [{ type_ := eventType, payload := p }])

/-- Modelled from the spec: the dispatcher invokes forward for an
estimate event and acknowledges 200 once routing completes, whatever the
forwarding outcome was. -/
def forwardAndAck (env : SheetEnv) (eventType : String) (p : Payload) :
    Nat × ForwardOutcome × List SheetPost :=
  let r := forward env eventType p
  (200, r.1, r.2)

/-- Spec-side description of a calendar resource, written after the
words of the resource construction rule: a fixed-order, newline-joined
block listing customer name, phone, email, address, services, notes and
the source doc id, substituting N/A or None for missing fields. The
lines after the first keep the indentation the source template gives
them. -/
def descriptionSpec (p : Payload) : String :=
  "Customer: " ++ jsOr p.customer_name "N/A" ++ "\n" ++
  "        Phone: " ++ jsOr p.customer_phone "N/A" ++ "\n" ++
  "        Email: " ++ jsOr p.customer_email "N/A" ++ "\n" ++
  "        Address: " ++ jsOr p.customer_address "N/A" ++ "\n" ++
  "        Services: " ++ jsOr p.services_list "N/A" ++ "\n" ++
  "        Notes: " ++ jsOr p.schedule_notes "None" ++ "\n" ++
  "        QuoteIQ Doc ID: " ++ jsStr p.doc_id

/-- Decidable side condition: the string is nonempty and its last
character is not whitespace, so the trailing trim of the description
template stops at the interpolated document id and cannot eat into it. -/
def endsNonWs (s : String) : Bool :=
  match s.data.getLast? with
  | none => false
  | some c => !(isJsWs c)

/-- Concrete payload used to instantiate the theorems below, matching the
scenario of the spec: doc_id Q1, customer Alice, both schedule
timestamps present. -/
def samplePayload : Payload :=
  { doc_id := some "Q1", customer_name := some "Alice", customer_phone := none,
    customer_email := some "alice@example.com", customer_address := none,
    services_list := none, schedule_notes := none,
    schedule_starts_at := some "2024-01-01T10:00:00Z",
    schedule_ends_at := some "2024-01-01T11:00:00Z" }

/-- The same payload with both schedule timestamps absent. -/
def samplePayloadNoTimes : Payload :=
  { samplePayload with schedule_starts_at := none, schedule_ends_at := none }

/-- Environment with valid credentials and a remote that accepts inserts
and updates. -/
def sampleEnvOk : CalEnv :=
  { hasCredsVar := true, credsValid := true, insertOutcome := some "G1",
    updateOutcome := UpdateOutcome.ok, deleteOk := true }

/-- Environment with valid credentials whose remote answers 404 to the
update call and accepts the fallback insert with a fresh id. -/
def sampleEnvNotFound : CalEnv :=
  { hasCredsVar := true, credsValid := true, insertOutcome := some "G2",
    updateOutcome := UpdateOutcome.notFound, deleteOk := true }

/-- Environment with the credentials variable absent. -/
def sampleEnvNoCreds : CalEnv :=
  { hasCredsVar := false, credsValid := false, insertOutcome := none,
    updateOutcome := UpdateOutcome.fail, deleteOk := false }

/-- A concrete calendar resource. -/
def sampleResource : CalendarResource := buildResourceCreated samplePayload

/-- A date-parsing oracle under which every timestamp string parses to a
valid date. -/
def sampleDateOk : String → Bool := fun _ => true

/-- A date-parsing oracle under which no timestamp string parses. -/
def sampleDateNone : String → Bool := fun _ => false

/-- Environment whose remote accepts the insert but answers it with an
empty-string event id. -/
def sampleEnvEmptyId : CalEnv :=
  { hasCredsVar := true, credsValid := true, insertOutcome := some "",
    updateOutcome := UpdateOutcome.ok, deleteOk := true }

/-- The sample payload with a doc id that ends in a space. -/
def samplePayloadTrailingWs : Payload :=
  { samplePayload with doc_id := some "Q1 " }

theorem dropWhile_append_of_all (p : Char → Bool) (a l : List Char)
    (h : ∀ c ∈ a, p c = true) :
    List.dropWhile p (a ++ l) = List.dropWhile p l := by
  induction a with
  | nil => rfl
  | cons x xs ih =>
      rw [List.cons_append, List.dropWhile_cons, if_pos (h x (by simp)),
        ih (fun c hc => h c (by simp [hc]))]

theorem dropWhile_of_head (p : Char → Bool) (l : List Char) (c : Char)
    (h1 : l.head? = some c) (h2 : p c = false) :
    List.dropWhile p l = l := by
  cases l with
  | nil => rfl
  | cons x xs =>
      have : x = c := by simpa using h1
      subst this
      rw [List.dropWhile_cons, if_neg (by simp [h2])]

/-- Trimming whitespace from both ends of a list that is all-whitespace
padding around a body whose first and last characters are not whitespace
returns exactly the body. -/
theorem trimChars_sandwich (a b body : List Char)
    (ha : ∀ c ∈ a, isJsWs c = true) (hb : ∀ c ∈ b, isJsWs c = true)
    (hh : ∀ c, body.head? = some c → isJsWs c = false)
    (hl : ∀ c, body.getLast? = some c → isJsWs c = false)
    (hne : body ≠ []) :
    trimChars (a ++ (body ++ b)) = body := by
  obtain ⟨x, xs, rfl⟩ : ∃ x xs, body = x :: xs := by
    cases body with
    | nil => exact absurd rfl hne
    | cons x xs => exact ⟨x, xs, rfl⟩
  have hsome : ((x :: xs).getLast?).isSome := by
    rw [List.getLast?_isSome]
    simp
  obtain ⟨c, hc⟩ := Option.isSome_iff_exists.mp hsome
  have s1 : List.dropWhile isJsWs (a ++ ((x :: xs) ++ b)) = (x :: xs) ++ b := by
    rw [dropWhile_append_of_all _ _ _ ha]
    exact dropWhile_of_head _ _ x rfl (hh x rfl)
  have s2 : List.dropWhile isJsWs ((x :: xs) ++ b).reverse = (x :: xs).reverse := by
    rw [List.reverse_append]
    rw [dropWhile_append_of_all _ _ _
      (fun c0 hc0 => hb c0 (List.mem_reverse.mp hc0))]
    exact dropWhile_of_head _ _ c (by rw [List.head?_reverse]; exact hc) (hl c hc)
  unfold trimChars
  rw [s1, s2, List.reverse_reverse]

/-- The trimmed template of the create path equals the spec-side
newline-joined block, provided the rendering of the document id does not
end in whitespace (otherwise the trim of the whole template would also
strip that whitespace from the id). -/
theorem description_eq_spec (p : Payload) (hd : endsNonWs (jsStr p.doc_id) = true) :
    (buildResourceCreated p).description = descriptionSpec p := by
  obtain ⟨c, hc, hw⟩ : ∃ c, (jsStr p.doc_id).data.getLast? = some c ∧ isJsWs c = false := by
    unfold endsNonWs at hd
    split at hd
    case _ => exact absurd hd (by simp)
    case _ c heq => exact ⟨c, heq, by simpa using hd⟩
  have hnil : (jsStr p.doc_id).data ≠ [] := by
    intro h
    rw [h] at hc
    simp at hc
  have hhead : (descriptionSpec p).data.head? = some 'C' := by
    simp only [descriptionSpec, String.data_append, List.append_assoc,
      List.cons_append, List.head?_cons]
  have hlast : (descriptionSpec p).data.getLast? = (jsStr p.doc_id).data.getLast? := by
    unfold descriptionSpec
    rw [String.data_append]
    exact List.getLast?_append_of_ne_nil _ hnil
  have hmain := trimChars_sandwich ("\n        ").data ("\n      ").data
    (descriptionSpec p).data
    (by decide) (by decide)
    (by intro c0 hc0
        rw [hhead] at hc0
        cases hc0
        decide)
    (by intro c0 hc0
        rw [hlast, hc] at hc0
        cases hc0
        exact hw)
    (by intro h
        rw [h] at hhead
        simp at hhead)
  have hshape :
      ("\n        Customer: " ++ jsOr p.customer_name "N/A" ++
       "\n        Phone: " ++ jsOr p.customer_phone "N/A" ++
       "\n        Email: " ++ jsOr p.customer_email "N/A" ++
       "\n        Address: " ++ jsOr p.customer_address "N/A" ++
       "\n        Services: " ++ jsOr p.services_list "N/A" ++
       "\n        Notes: " ++ jsOr p.schedule_notes "None" ++
       "\n        QuoteIQ Doc ID: " ++ jsStr p.doc_id ++
       "\n      ").data
      = "\n        ".data ++ ((descriptionSpec p).data ++ "\n      ".data) := by
    simp only [descriptionSpec, String.data_append, List.append_assoc,
      List.cons_append, List.nil_append]
  simp only [buildResourceCreated]
  unfold jsTrim
  rw [hshape, hmain]

/-- C1, counterexample: the claim states that an envelope with the
unrecognized type unknown.event and no payload is logged, ignored and
acknowledged with 200; on the src/index.js route the same envelope is
acknowledged with 500, because the success-response body dereferences
payload.doc_id, so the claim as stated is false at this input. -/
theorem unknown_event_without_payload_is_500 :
    (dispatchIndex sampleDateOk
        { hasCredsVar := true, credsValid := true, insertOutcome := some "G1",
          updateOutcome := UpdateOutcome.ok, deleteOk := true }
        [] { type_ := some "unknown.event", payload := none }).status = 500
    ∧ ¬ (dispatchIndex sampleDateOk
        { hasCredsVar := true, credsValid := true, insertOutcome := some "G1",
          updateOutcome := UpdateOutcome.ok, deleteOk := true }
        [] { type_ := some "unknown.event", payload := none }).status = 200 := by
  decide

/-- C1, amended: on the src/index.js route, an envelope that parses as a
JSON object is acknowledged 500 when it lacks a payload object; with a
payload object it is acknowledged 200 once routing completes, for every
credential and remote-service behaviour, so even when the downstream
calendar operation failed remotely, except in exactly one case: the type
routes to schedule.created or schedule.updated and the payload carries
truthy schedule timestamps of which at least one does not parse as a
valid date, where the resource construction throws a synchronous
RangeError before any external call and the route answers 500. An
envelope with a payload object and an unrecognized type is logged and
ignored: the store untouched, no external call, and still 200. -/
theorem dispatch_ack_characterization :
    (∀ (dv : String → Bool) (env : CalEnv) (m : Mappings) (t : Option String)
        (p : Payload),
      (dispatchIndex dv env m { type_ := t, payload := some p }).status
        = if isScheduleWrite t && scheduleThrow dv p then 500 else 200)
    ∧ (∀ (dv : String → Bool) (env : CalEnv) (m : Mappings) (t : Option String),
        (dispatchIndex dv env m { type_ := t, payload := none }).status = 500)
    ∧ (∀ (dv : String → Bool) (env : CalEnv) (m : Mappings) (t : Option String)
        (p : Payload),
        recognizedB t = false →
        dispatchIndex dv env m { type_ := t, payload := some p }
          = { status := 200, ok := true, mappings := m, calls := [] }) := by
  refine ⟨?_, fun dv env m t => rfl, ?_⟩
  · intro dv env m t p
    by_cases h1 : t = some "estimate.created"
    · subst h1
      simp [dispatchIndex, routeIndex, isScheduleWrite]
    by_cases h2 : t = some "estimate.updated"
    · subst h2
      simp [dispatchIndex, routeIndex, isScheduleWrite]
    by_cases h3 : t = some "estimate.deleted"
    · subst h3
      simp [dispatchIndex, routeIndex, isScheduleWrite]
    by_cases h4 : t = some "schedule.created"
    · subst h4
      cases hg1 : jsTruthy p.schedule_starts_at <;>
        cases hg2 : jsTruthy p.schedule_ends_at <;>
          cases hd1 : dv (p.schedule_starts_at.getD "") <;>
            cases hd2 : dv (p.schedule_ends_at.getD "") <;>
              simp [dispatchIndex, routeIndex, isScheduleWrite, scheduleThrow,
                handleScheduleCreated, hg1, hg2, hd1, hd2]
    by_cases h5 : t = some "schedule.updated"
    · subst h5
      cases hg1 : jsTruthy p.schedule_starts_at <;>
        cases hg2 : jsTruthy p.schedule_ends_at <;>
          cases hd1 : dv (p.schedule_starts_at.getD "") <;>
            cases hd2 : dv (p.schedule_ends_at.getD "") <;>
              simp [dispatchIndex, routeIndex, isScheduleWrite, scheduleThrow,
                handleScheduleUpdated, hg1, hg2, hd1, hd2]
    by_cases h6 : t = some "schedule.deleted"
    · subst h6
      simp [dispatchIndex, routeIndex, isScheduleWrite]
    · have b1 : (t == some "estimate.created") = false := by simp [h1]
      have b2 : (t == some "estimate.updated") = false := by simp [h2]
      have b3 : (t == some "estimate.deleted") = false := by simp [h3]
      have b4 : (t == some "schedule.created") = false := by simp [h4]
      have b5 : (t == some "schedule.updated") = false := by simp [h5]
      have b6 : (t == some "schedule.deleted") = false := by simp [h6]
      simp [dispatchIndex, routeIndex, isScheduleWrite, b1, b2, b3, b4, b5, b6]
  · intro dv env m t p hrec
    simp only [recognizedB, Bool.or_eq_false_iff] at hrec
    obtain ⟨⟨⟨⟨⟨g1, g2⟩, g3⟩, g4⟩, g5⟩, g6⟩ := hrec
    simp [dispatchIndex, routeIndex, g1, g2, g3, g4, g5, g6]

/-- C1, witness: the amended theorem applied to the unknown.event
envelope carrying a payload object. -/
theorem dispatch_ack_characterization_witness :
    recognizedB (some "unknown.event") = false
    ∧ dispatchIndex sampleDateOk sampleEnvOk []
        { type_ := some "unknown.event", payload := some samplePayload }
        = { status := 200, ok := true, mappings := [], calls := [] } :=
  ⟨by decide,
    dispatch_ack_characterization.2.2 sampleDateOk sampleEnvOk []
      (some "unknown.event") samplePayload (by decide)⟩

/-- C2, counterexample: the claim promises that after every successful
create that stored a mapping, the subsequent update goes against the
stored external id and no second create is issued; but when the remote
answers the insert with the empty-string id, the create succeeds and
stores that id, and the subsequent update trips the falsy check
if (!googleEventId) of the source and issues a second insert — no update
call at all. -/
theorem create_empty_id_then_update_creates_again :
    (createGoogleCalendarEvent sampleEnvEmptyId sampleResource (some "Q1") []).2.1
      = [(some "Q1", "")]
    ∧ updateGoogleCalendarEvent sampleEnvEmptyId sampleResource (some "Q1")
        [(some "Q1", "")]
      = (some "", [(some "Q1", "")], [ExtCall.insert sampleResource]) := by
  decide

/-- C2, amended: after a successful create for a doc id stored the
mapping to a nonempty external id gid, a subsequent update for the same
doc id (with the remote reporting success) issues exactly one update
call against that same gid, returns it, leaves the store as the create
left it, and issues no second insert. The nonemptiness proviso is forced
by the counterexample: the source tests the stored id for JavaScript
truthiness, so a stored empty-string id falls back to a second create. -/
theorem update_after_create_uses_same_id
    (envC envU : CalEnv) (rC rU : CalendarResource) (d : DocId)
    (m : Mappings) (gid : String)
    (hauth1 : getGoogleCalendarAuth envC = true)
    (hins : envC.insertOutcome = some gid)
    (hgid : gid ≠ "")
    (hauth2 : getGoogleCalendarAuth envU = true)
    (hupd : envU.updateOutcome = UpdateOutcome.ok) :
    updateGoogleCalendarEvent envU rU d (createGoogleCalendarEvent envC rC d m).2.1
      = (some gid, (createGoogleCalendarEvent envC rC d m).2.1,
          [ExtCall.update gid rU])
    ∧ ∀ r0, ExtCall.insert r0 ∉
        (updateGoogleCalendarEvent envU rU d (createGoogleCalendarEvent envC rC d m).2.1).2.2 := by
  have hcreate : createGoogleCalendarEvent envC rC d m
      = (some gid, mput m d gid, [ExtCall.insert rC]) := by
    simp [createGoogleCalendarEvent, hauth1, hins]
  have hlook : mget (mput m d gid) d = some gid := by
    simp [mget, mput, List.lookup]
  have hup : updateGoogleCalendarEvent envU rU d (mput m d gid)
      = (some gid, mput m d gid, [ExtCall.update gid rU]) := by
    simp [updateGoogleCalendarEvent, hauth2, hupd, hlook, hgid]
  rw [hcreate]
  exact ⟨hup, by rw [hup]; simp⟩

/-- C2, witness: create then update for doc id Q1 under sampleEnvOk. -/
theorem update_after_create_uses_same_id_witness :
    (getGoogleCalendarAuth sampleEnvOk = true
      ∧ sampleEnvOk.insertOutcome = some "G1"
      ∧ sampleEnvOk.updateOutcome = UpdateOutcome.ok)
    ∧ updateGoogleCalendarEvent sampleEnvOk sampleResource (some "Q1")
        (createGoogleCalendarEvent sampleEnvOk sampleResource (some "Q1") []).2.1
      = (some "G1",
          (createGoogleCalendarEvent sampleEnvOk sampleResource (some "Q1") []).2.1,
          [ExtCall.update "G1" sampleResource]) :=
  ⟨⟨by decide, by decide, by decide⟩,
    (update_after_create_uses_same_id sampleEnvOk sampleEnvOk sampleResource
      sampleResource (some "Q1") [] "G1" (by decide) (by decide) (by decide)
      (by decide) (by decide)).1⟩

/-- C3: when the store maps the doc id to a nonempty gid (the claim
premise, not-found reported while updating the mapped resource,
presupposes the update call was issued, which requires the stored id to
pass the truthiness check of the source) and the remote answers the
update with not-found, the engine drops the stale mapping, performs
exactly one fallback insert (no error escapes: the fallback create
swallows its own failures), and the store afterwards maps the doc id to
the freshly created id. -/
theorem update_notfound_fallback_create_once
    (env : CalEnv) (r : CalendarResource) (d : DocId) (m : Mappings)
    (gid newId : String)
    (hauth : getGoogleCalendarAuth env = true)
    (hupd : env.updateOutcome = UpdateOutcome.notFound)
    (hins : env.insertOutcome = some newId)
    (hmap : mget m d = some gid)
    (hgid : gid ≠ "") :
    updateGoogleCalendarEvent env r d m
      = (some newId, mput (mdel m d) d newId,
          [ExtCall.update gid r, ExtCall.insert r])
    ∧ mget (updateGoogleCalendarEvent env r d m).2.1 d = some newId
    ∧ ((updateGoogleCalendarEvent env r d m).2.2.filter ExtCall.isInsert).length = 1 := by
  have h1 : updateGoogleCalendarEvent env r d m
      = (some newId, mput (mdel m d) d newId,
          [ExtCall.update gid r, ExtCall.insert r]) := by
    simp [updateGoogleCalendarEvent, createGoogleCalendarEvent, hauth, hupd, hins,
      hmap, hgid]
  refine ⟨h1, ?_, ?_⟩
  · rw [h1]
    simp [mget, mput, List.lookup]
  · rw [h1]
    simp [ExtCall.isInsert]

/-- C3, witness: not-found recovery for doc id Q1 mapped to G1, with the
fallback insert returning G2. -/
theorem update_notfound_fallback_create_once_witness :
    (getGoogleCalendarAuth sampleEnvNotFound = true
      ∧ sampleEnvNotFound.updateOutcome = UpdateOutcome.notFound
      ∧ mget [(some "Q1", "G1")] (some "Q1") = some "G1")
    ∧ updateGoogleCalendarEvent sampleEnvNotFound sampleResource (some "Q1")
        [(some "Q1", "G1")]
      = (some "G2", mput (mdel [(some "Q1", "G1")] (some "Q1")) (some "Q1") "G2",
          [ExtCall.update "G1" sampleResource, ExtCall.insert sampleResource]) :=
  ⟨⟨by decide, by decide, by decide⟩,
    (update_notfound_fallback_create_once sampleEnvNotFound sampleResource (some "Q1")
      [(some "Q1", "G1")] "G1" "G2" (by decide) (by decide) (by decide) (by decide)
      (by decide)).1⟩

/-- C4: for a doc id with no entry in the mapping store, the update
operation is the create operation: the same value, the same resulting
store and the same external-call trace, whatever the environment. -/
theorem update_unmapped_equals_create
    (env : CalEnv) (r : CalendarResource) (d : DocId) (m : Mappings)
    (hmap : mget m d = none) :
    updateGoogleCalendarEvent env r d m = createGoogleCalendarEvent env r d m := by
  by_cases h : getGoogleCalendarAuth env = true
  · simp [updateGoogleCalendarEvent, h, hmap]
  · simp [updateGoogleCalendarEvent, createGoogleCalendarEvent, h]

/-- C4, witness: update on the empty store for doc id Q2. -/
theorem update_unmapped_equals_create_witness :
    mget [] (some "Q2") = none
    ∧ updateGoogleCalendarEvent sampleEnvOk sampleResource (some "Q2") []
        = createGoogleCalendarEvent sampleEnvOk sampleResource (some "Q2") [] :=
  ⟨by decide,
    update_unmapped_equals_create sampleEnvOk sampleResource (some "Q2") [] (by decide)⟩

/-- C5: deleting a doc id with no entry in the mapping store issues no
external call and leaves the store unchanged (and, the function being
total, raises no error). -/
theorem delete_unmapped_noop
    (env : CalEnv) (d : DocId) (m : Mappings)
    (hmap : mget m d = none) :
    deleteGoogleCalendarEvent env d m = (m, []) := by
  by_cases h : getGoogleCalendarAuth env = true
  · simp [deleteGoogleCalendarEvent, h, hmap]
  · simp [deleteGoogleCalendarEvent, h]

/-- C5, witness: delete on the empty store for doc id Q2. -/
theorem delete_unmapped_noop_witness :
    mget [] (some "Q2") = none
    ∧ deleteGoogleCalendarEvent sampleEnvOk (some "Q2") [] = ([], []) :=
  ⟨by decide, delete_unmapped_noop sampleEnvOk (some "Q2") [] (by decide)⟩

/-- C6: when either schedule timestamp is missing, the schedule.created
handler and the schedule.updated handler are both no-ops that complete
normally: the result is some (no throw — the missing timestamp falsifies
the guard before the throwing date code is reached, whatever the
date-parsing oracle says), with no external calendar call and the
mapping store unchanged. -/
theorem schedule_missing_times_noop
    (dv : String → Bool) (env : CalEnv) (p : Payload) (m : Mappings)
    (hmiss : p.schedule_starts_at = none ∨ p.schedule_ends_at = none) :
    handleScheduleCreated dv env p m = some (m, [])
    ∧ handleScheduleUpdated dv env p m = some (m, []) := by
  have hguard : (jsTruthy p.schedule_starts_at && jsTruthy p.schedule_ends_at) = false := by
    cases hmiss with
    | inl h => simp [jsTruthy, h]
    | inr h => simp [jsTruthy, h]
  exact ⟨by simp [handleScheduleCreated, hguard], by simp [handleScheduleUpdated, hguard]⟩

/-- C6, witness: the payload with both timestamps removed, under an
oracle that parses nothing, so only the guard protects the handler. -/
theorem schedule_missing_times_noop_witness :
    samplePayloadNoTimes.schedule_starts_at = none
    ∧ handleScheduleCreated sampleDateNone sampleEnvOk samplePayloadNoTimes []
        = some ([], [])
    ∧ handleScheduleUpdated sampleDateNone sampleEnvOk samplePayloadNoTimes []
        = some ([], []) :=
  ⟨by decide,
    (schedule_missing_times_noop sampleDateNone sampleEnvOk samplePayloadNoTimes []
      (Or.inl (by decide))).1,
    (schedule_missing_times_noop sampleDateNone sampleEnvOk samplePayloadNoTimes []
      (Or.inl (by decide))).2⟩

/-- C7, counterexample: the claim asserts the fixed-order block for
every payload, but for a doc id that ends in a space the final trim of
the description template also strips that space from the rendered doc
id, so the description differs from the claimed block. -/
theorem trailing_ws_doc_id_escapes_block :
    ¬ (buildResourceCreated samplePayloadTrailingWs).description
        = descriptionSpec samplePayloadTrailingWs := by
  decide

/-- C7, amended: the resource built on the create path equals the one
built on the update path; its summary is Appointment followed by the
customer name, falling back to QuoteIQ Customer when the name is missing
or empty; its location is the customer address or the empty string; its
attendees contain exactly the customer email when one is present and
nonempty, and nothing otherwise; and whenever the rendered doc id does
not end in whitespace — the amendment the counterexample forces, the
template trim otherwise eats into it, and a missing doc id renders as
the literal text undefined — its description is exactly the fixed-order
newline-joined block descriptionSpec, substituting N/A and None for
missing fields. -/
theorem resource_construction_rule (p : Payload)
    (hd : endsNonWs (jsStr p.doc_id) = true) :
    buildResourceCreated p = buildResourceUpdated p
    ∧ (buildResourceCreated p).summary
        = "Appointment - " ++ jsOr p.customer_name "QuoteIQ Customer"
    ∧ ((p.customer_name = none ∨ p.customer_name = some "") →
        (buildResourceCreated p).summary = "Appointment - QuoteIQ Customer")
    ∧ (buildResourceCreated p).description = descriptionSpec p
    ∧ (buildResourceCreated p).location = jsOr p.customer_address ""
    ∧ (p.customer_address = none → (buildResourceCreated p).location = "")
    ∧ (∀ e0, e0 ∈ (buildResourceCreated p).attendees ↔
        p.customer_email = some e0 ∧ e0 ≠ "") := by
  refine ⟨rfl, rfl, ?_, description_eq_spec p hd, rfl, ?_, ?_⟩
  · intro h
    cases h with
    | inl h0 => simp [buildResourceCreated, jsOr, h0]
    | inr h0 => simp [buildResourceCreated, jsOr, h0]
  · intro h
    simp [buildResourceCreated, jsOr, h]
  · intro e0
    cases hE : p.customer_email with
    | none => simp [buildResourceCreated, jsTruthy, hE]
    | some s =>
        by_cases hs : s = ""
        · simp [buildResourceCreated, jsTruthy, hE, hs]
          exact fun h0 => h0.symm
        · simp only [buildResourceCreated, jsTruthy, hE]
          simp [hs]
          constructor
          · intro h0
            exact ⟨h0.symm, fun hc => hs (h0.symm.trans hc)⟩
          · intro h0
            exact h0.1.symm

/-- C7, witness: the construction rule applied to the sample payload,
projected onto the description clause. -/
theorem resource_construction_rule_witness :
    endsNonWs (jsStr samplePayload.doc_id) = true
    ∧ (buildResourceCreated samplePayload).description = descriptionSpec samplePayload :=
  ⟨by decide, (resource_construction_rule samplePayload (by decide)).2.2.2.1⟩

/-- C8: with the credentials environment variable absent, create, update
and delete all skip every external calendar call without throwing (they
are total and leave the store unchanged), and any envelope carrying a
payload object that reaches them — one that does not die beforehand in
the resource construction, whose toISOString throw happens before the
credentials are even consulted and yields 500 with or without
credentials — is still acknowledged 200 with no calendar call made. -/
theorem missing_credentials_soft_disable
    (env : CalEnv) (hcreds : env.hasCredsVar = false) :
    (∀ r d m, createGoogleCalendarEvent env r d m = (none, m, []))
    ∧ (∀ r d m, updateGoogleCalendarEvent env r d m = (none, m, []))
    ∧ (∀ d m, deleteGoogleCalendarEvent env d m = (m, []))
    ∧ (∀ (dv : String → Bool) m e p, e.payload = some p →
        scheduleThrow dv p = false →
        dispatchIndex dv env m e
          = { status := 200, ok := true, mappings := m, calls := [] }) := by
  have hauth : getGoogleCalendarAuth env = false := by
    simp [getGoogleCalendarAuth, hcreds]
  have h1 : ∀ r d m, createGoogleCalendarEvent env r d m = (none, m, []) := by
    intro r d m
    simp [createGoogleCalendarEvent, hauth]
  have h2 : ∀ r d m, updateGoogleCalendarEvent env r d m = (none, m, []) := by
    intro r d m
    simp [updateGoogleCalendarEvent, hauth]
  have h3 : ∀ d m, deleteGoogleCalendarEvent env d m = (m, []) := by
    intro d m
    simp [deleteGoogleCalendarEvent, hauth]
  refine ⟨h1, h2, h3, ?_⟩
  intro dv m e p hp hthrow
  have hroute : ∀ t, routeIndex dv env p m t = some (m, []) := by
    intro t
    cases hg : (jsTruthy p.schedule_starts_at && jsTruthy p.schedule_ends_at) with
    | false =>
        simp [routeIndex, handleScheduleCreated, handleScheduleUpdated,
          handleScheduleDeleted, hg, h1, h2, h3]
    | true =>
        have hdv : (dv (p.schedule_starts_at.getD "")
            && dv (p.schedule_ends_at.getD "")) = true := by
          unfold scheduleThrow at hthrow
          rw [hg] at hthrow
          simpa using hthrow
        simp [routeIndex, handleScheduleCreated, handleScheduleUpdated,
          handleScheduleDeleted, hg, hdv, h1, h2, h3]
  obtain ⟨t, pl⟩ := e
  cases hp
  simp [dispatchIndex, hroute]

/-- C8, witness: the credential-free environment applied to the three
operations and to a schedule.created envelope whose timestamps parse. -/
theorem missing_credentials_soft_disable_witness :
    sampleEnvNoCreds.hasCredsVar = false
    ∧ scheduleThrow sampleDateOk samplePayload = false
    ∧ createGoogleCalendarEvent sampleEnvNoCreds sampleResource (some "Q1") []
        = (none, [], [])
    ∧ updateGoogleCalendarEvent sampleEnvNoCreds sampleResource (some "Q1") []
        = (none, [], [])
    ∧ deleteGoogleCalendarEvent sampleEnvNoCreds (some "Q1") [] = ([], [])
    ∧ dispatchIndex sampleDateOk sampleEnvNoCreds []
        { type_ := some "schedule.created", payload := some samplePayload }
        = { status := 200, ok := true, mappings := [], calls := [] } :=
  ⟨rfl, by decide,
    (missing_credentials_soft_disable sampleEnvNoCreds rfl).1 sampleResource (some "Q1") [],
    (missing_credentials_soft_disable sampleEnvNoCreds rfl).2.1 sampleResource (some "Q1") [],
    (missing_credentials_soft_disable sampleEnvNoCreds rfl).2.2.1 (some "Q1") [],
    (missing_credentials_soft_disable sampleEnvNoCreds rfl).2.2.2 sampleDateOk []
      { type_ := some "schedule.created", payload := some samplePayload } samplePayload
      rfl (by decide)⟩

/-- C9: forwarding an estimate event performs exactly one POST carrying
the serialized type and payload, succeeds exactly when the endpoint
accepts it, swallows failure (the operation is total, with no exception
outcome), and the acknowledgment produced after forwarding is 200
whatever the forwarding outcome. -/
theorem forward_single_post_best_effort
    (env : SheetEnv) (t : String) (p : Payload) :
    (forward env t p).2 = [{ type_ := t, payload := p }]
    ∧ ((forward env t p).1 = ForwardOutcome.delivered ↔ env.postOk = true)
    ∧ (forwardAndAck env t p).1 = 200 := by
  refine ⟨rfl, ?_, rfl⟩
  cases h : env.postOk <;> simp [forward, h]

/-- C10: on the src/index.js route, an envelope whose body lacks a
payload object is answered 500 with success false, whatever the type
value, recognized or unknown, and whatever the environment, the
date-parsing oracle and the store. -/
theorem missing_payload_yields_500
    (dv : String → Bool) (env : CalEnv) (m : Mappings) (t : Option String) :
    dispatchIndex dv env m { type_ := t, payload := none }
      = { status := 500, ok := false, mappings := m, calls := [] } := rfl

end QuoteIQ
